import Mathlib

/-
Verification development for the MatrusVox live-audio transcription client.

The definitions below are a shallow embedding of the TypeScript sources:
  src/services/geminiLive.ts  (GeminiLiveService: connect, disconnect,
                               handleOnMessage, emitTranscription, createBlob, encode)
  src/App.tsx                 (handleTranscriptionUpdate, clearTranscripts,
                               handleFileUpload)
  src/types.ts                (TranscriptItem, ConnectionState)

Numbers: audio samples are modelled as rationals (the algorithms only clamp,
scale by integer constants and truncate, which the exact test vectors of the
spec represent exactly); 16-bit packing is modelled on Int/Nat with explicit
mod 2^16. Wall-clock time (Date.now) is passed in as an explicit Nat.
-/

namespace MatrusVox

/-- Speaker tag of a transcript item (src/types.ts): this client only ever
produces user-tagged items. -/
inductive Speaker where
  | user
  | model
deriving DecidableEq, Repr

/-- TranscriptItem from src/types.ts. The Date timestamp is modelled as a Nat
tick supplied by the caller. -/
structure TranscriptItem where
  id : String
  text : String
  isPartial : Bool
  timestamp : Nat
  speaker : Speaker
deriving DecidableEq, Repr

/-- ConnectionState from src/types.ts. -/
inductive ConnectionState where
  | DISCONNECTED
  | CONNECTING
  | CONNECTED
  | ERROR
deriving DecidableEq, Repr

/- ----------------------------------------------------------------
   Base64 (the `encode` method of GeminiLiveService builds a binary
   string with String.fromCharCode and applies btoa, i.e. standard
   base64 with padding over the raw byte sequence).
   ---------------------------------------------------------------- -/

/-- The standard base64 alphabet used by btoa. -/
def b64Alphabet : List Char :=
  "ABCDEFGHIJKLMNOPQRSTUVWXYZabcdefghijklmnopqrstuvwxyz0123456789+/".toList

/-- Character for a 6-bit group. -/
def b64Char (n : Nat) : Char := b64Alphabet.getD n '='

/-- Index of a base64 character in the alphabet (decoder side). -/
def b64CharVal (c : Char) : Nat := b64Alphabet.findIdx (fun d => d = c)

/-- Base64 encoding of a byte sequence, processed in 3-byte chunks, with
= padding, exactly as btoa produces it. -/
def b64EncodeChunks : List Nat → List Char
  | [] => []
  | [b1] => [b64Char (b1 / 4), b64Char (b1 % 4 * 16), '=', '=']
  | [b1, b2] => [b64Char (b1 / 4), b64Char (b1 % 4 * 16 + b2 / 16),
                 b64Char (b2 % 16 * 4), '=']
  | b1 :: b2 :: b3 :: rest =>
      b64Char (b1 / 4) :: b64Char (b1 % 4 * 16 + b2 / 16) ::
      b64Char (b2 % 16 * 4 + b3 / 64) :: b64Char (b3 % 64) ::
      b64EncodeChunks rest

/-- Base64 decoding (atob direction), processed in 4-character chunks. -/
def b64DecodeChunks : List Char → List Nat
  | c1 :: c2 :: c3 :: c4 :: rest =>
      if c3 = '=' then [b64CharVal c1 * 4 + b64CharVal c2 / 16]
      else if c4 = '=' then
        [b64CharVal c1 * 4 + b64CharVal c2 / 16,
         b64CharVal c2 % 16 * 16 + b64CharVal c3 / 4]
      else
        (b64CharVal c1 * 4 + b64CharVal c2 / 16) ::
        (b64CharVal c2 % 16 * 16 + b64CharVal c3 / 4) ::
        (b64CharVal c3 % 4 * 64 + b64CharVal c4) ::
        b64DecodeChunks rest
  | _ => []

/-- GeminiLiveService.encode: bytes to base64 string. -/
def encode (bytes : List Nat) : String := String.mk (b64EncodeChunks bytes)

/-- Decode a base64 string back to bytes. -/
def b64DecodeStr (s : String) : List Nat := b64DecodeChunks s.toList

/- ----------------------------------------------------------------
   PCM encoding (GeminiLiveService.createBlob).
   ---------------------------------------------------------------- -/

/-- Math.max(-1, Math.min(1, x)) from createBlob. -/
def clampSample (x : ℚ) : ℚ := max (-1) (min 1 x)

/-- Truncation toward zero, as JavaScript ToInt16 applies to an in-range
number before storing it into an Int16Array slot. -/
def truncQ (q : ℚ) : Int := if q < 0 then -(Int.floor (-q)) else Int.floor q

/-- One sample of createBlob: clamp, then scale negatives by 0x8000 and
non-negatives by 0x7FFF, then truncate to an integer. -/
def sampleToInt16 (x : ℚ) : Int :=
  let s := clampSample x
  if s < 0 then truncQ (s * 32768) else truncQ (s * 32767)

/-- Little-endian bytes of the 16-bit two's-complement representation,
as reading the Int16Array buffer through a Uint8Array does. -/
def int16ToBytes (v : Int) : List Nat :=
  let t := (v % 65536).toNat
  [t % 256, t / 256]

/-- The raw byte sequence createBlob builds (Int16Array buffer viewed as
bytes, in sample order). -/
def pcmBytes : List ℚ → List Nat
  | [] => []
  | x :: rest => int16ToBytes (sampleToInt16 x) ++ pcmBytes rest

/-- The payload createBlob returns. -/
structure PcmBlob where
  data : String
  mimeType : String
deriving DecidableEq, Repr

/-- GeminiLiveService.createBlob: PCM-encode the samples and base64 the
bytes, with the fixed mime type. -/
def createBlob (data : List ℚ) : PcmBlob :=
  { data := encode (pcmBytes data), mimeType := "audio/pcm;rate=16000" }

/- Reference definition, written from the specification text of section 4.1:
clamp each sample to [-1,1]; scale negative values by 32768 and non-negative
values by 32767; pack as little-endian 16-bit integers (two's complement);
base64-encode the raw byte sequence. -/

/-- Two's-complement 16-bit representation as the spec describes packing a
signed value. -/
def twosComplement16 (v : Int) : Nat :=
  if v < 0 then (v + 65536).toNat else v.toNat

/-- Little-endian packing of the spec's two's-complement representation. -/
def int16ToBytesSpec (v : Int) : List Nat :=
  [twosComplement16 v % 256, twosComplement16 v / 256]

/-- Byte sequence per the spec's wording. -/
def pcmBytesSpec : List ℚ → List Nat
  | [] => []
  | x :: rest => int16ToBytesSpec (sampleToInt16 x) ++ pcmBytesSpec rest

/-- Reference PCM encoder per the spec's wording of section 4.1. -/
def pcmEncodeSpec (data : List ℚ) : PcmBlob :=
  { data := encode (pcmBytesSpec data), mimeType := "audio/pcm;rate=16000" }

/- ----------------------------------------------------------------
   GeminiLiveService state and lifecycle.
   ---------------------------------------------------------------- -/

/-- JavaScript String.prototype.trim, modelled structurally: drop leading and
trailing whitespace characters. -/
def trimString (s : String) : String :=
  String.mk (((s.data.dropWhile Char.isWhitespace).reverse.dropWhile
      Char.isWhitespace).reverse)

/-- The nullable resource fields and the transcription buffer of
GeminiLiveService. A true flag means the field is non-null. -/
structure ServiceState where
  session : Bool
  inputAudioContext : Bool
  stream : Bool
  processor : Bool
  source : Bool
  currentInputTranscription : String
deriving DecidableEq, Repr

/-- The state every field of disconnect() leaves behind: all resources null,
buffer empty. -/
def emptyServiceState : ServiceState :=
  { session := false, inputAudioContext := false, stream := false,
    processor := false, source := false, currentInputTranscription := "" }

/-- Observable effects of the service: observer callbacks and the ordered
side effects of connect()/handleFileUpload. -/
inductive Event where
  | openAudioContext (sampleRate : Nat)
  | requestMicrophone
  | openRealtimeConnection (callbacksRegistered : Bool)
  | attachAudioTap
  | statusChange (connected : Bool)
  | errorReport (msg : String)
  | useInlinePayload
  | useUploadRef
  | issueBatchRequest
deriving DecidableEq, Repr

/-- GeminiLiveService.disconnect: close the session, detach the processor and
source, stop the stream tracks and close the audio context (each close is
guarded by a null check in the source, so no step can throw), null every
resource field, clear the transcription buffer, then call
onStatusChange(false) exactly once. -/
def disconnect (_s : ServiceState) : ServiceState × List Event :=
  (emptyServiceState, [Event.statusChange false])

/-- GeminiLiveService.handleOnError: report the fixed error message, then run
disconnect. -/
def handleOnError (s : ServiceState) : ServiceState × List Event :=
  let r := disconnect s
  (r.1, Event.errorReport "Connection error occurred." :: r.2)

/-- GeminiLiveService.handleOnClose: run disconnect. -/
def handleOnClose (s : ServiceState) : ServiceState × List Event :=
  disconnect s

/-- Which of the three fallible acquisition steps of connect() succeed in a
given run (AudioContext construction, getUserMedia, ai.live.connect). -/
structure ConnectEnv where
  audioContextOk : Bool
  microphoneOk : Bool
  connectOk : Bool
deriving DecidableEq, Repr

/-- The catch block of connect(): report the error (error.message with the
fixed fallback text) and run disconnect over whatever was acquired. -/
def connectFail (s : ServiceState) (t : List Event) : ServiceState × List Event :=
  let r := disconnect s
  (r.1, t ++ Event.errorReport "Failed to connect to Gemini Live Service" :: r.2)

/-- GeminiLiveService.connect, side effects in source order: construct the
16 kHz AudioContext, request the microphone, open the realtime connection
with its callbacks registered in the config, attach the audio processing tap
(setupAudioProcessing), then report connected. Any failure falls into the
catch block. -/
def connect (env : ConnectEnv) (s : ServiceState) : ServiceState × List Event :=
  if env.audioContextOk = false then connectFail s []
  else
    let s1 := { s with inputAudioContext := true }
    let t1 := [Event.openAudioContext 16000]
    if env.microphoneOk = false then connectFail s1 t1
    else
      let s2 := { s1 with stream := true }
      let t2 := t1 ++ [Event.requestMicrophone]
      if env.connectOk = false then connectFail s2 t2
      else
        let s3 := { s2 with session := true }
        let t3 := t2 ++ [Event.openRealtimeConnection true]
        let s4 := { s3 with source := true, processor := true }
        let t4 := t3 ++ [Event.attachAudioTap]
        (s4, t4 ++ [Event.statusChange true])

/- ----------------------------------------------------------------
   Incoming message handling (GeminiLiveService.handleOnMessage).
   ---------------------------------------------------------------- -/

/-- message.serverContent.inputTranscription, with its optional text field. -/
structure InputTranscription where
  text : Option String
deriving DecidableEq, Repr

/-- message.serverContent. -/
structure ServerContent where
  inputTranscription : Option InputTranscription
  turnComplete : Bool
deriving DecidableEq, Repr

/-- An incoming LiveServerMessage, restricted to the fields handleOnMessage
reads. -/
structure LiveServerMessage where
  serverContent : Option ServerContent
deriving DecidableEq, Repr

/-- The optional-chaining access message.serverContent?.inputTranscription
followed by the truthiness test on its text (undefined and the empty string
are both falsy). -/
def msgFragment (m : LiveServerMessage) : Option String :=
  match m.serverContent with
  | none => none
  | some sc =>
    match sc.inputTranscription with
    | none => none
    | some it =>
      match it.text with
      | none => none
      | some t => if t = "" then none else some t

/-- The truthiness test on message.serverContent?.turnComplete. -/
def msgTurnComplete (m : LiveServerMessage) : Bool :=
  match m.serverContent with
  | none => false
  | some sc => sc.turnComplete

/-- GeminiLiveService.emitTranscription: build the TranscriptItem handed to
onTranscriptionUpdate; partial items share the fixed sentinel id, finalized
items get a time-based id. -/
def emitTranscription (now : Nat) (s : ServiceState) (p : Bool) : TranscriptItem :=
  { id := if p then "current-turn" else toString now,
    text := s.currentInputTranscription,
    isPartial := p,
    timestamp := now,
    speaker := Speaker.user }

/-- GeminiLiveService.handleOnMessage: append a non-empty transcription
fragment to the buffer and emit a partial update with the accumulated text;
then, on turnComplete, if the buffer does not trim to empty, emit a finalized
item with the accumulated text and reset the buffer. Returns the new state
and the items passed to onTranscriptionUpdate, in call order. -/
def handleOnMessage (now : Nat) (s : ServiceState) (m : LiveServerMessage) :
    ServiceState × List TranscriptItem :=
  let r1 : ServiceState × List TranscriptItem :=
    match msgFragment m with
    | some t =>
        let s1 := { s with
          currentInputTranscription := s.currentInputTranscription ++ t }
        (s1, [emitTranscription now s1 true])
    | none => (s, [])
  if msgTurnComplete m then
    if trimString r1.1.currentInputTranscription ≠ "" then
      ({ r1.1 with currentInputTranscription := "" },
       r1.2 ++ [emitTranscription now r1.1 false])
    else r1
  else r1

/-- Number of partial updates in an emitted batch. -/
def partialCount (items : List TranscriptItem) : Nat :=
  (items.filter (fun it => it.isPartial)).length

/-- Number of finalized items in an emitted batch. -/
def finalCount (items : List TranscriptItem) : Nat :=
  (items.filter (fun it => !it.isPartial)).length

/-- Number of onStatusChange(false) notifications in an event trace. -/
def countStatusFalse (evs : List Event) : Nat :=
  (evs.filter (fun e => e == Event.statusChange false)).length

/- ----------------------------------------------------------------
   App.tsx: transcript store and file upload.
   ---------------------------------------------------------------- -/

/-- The App-level transcript state: the finalized list and the in-progress
partial text. -/
structure AppState where
  transcripts : List TranscriptItem
  currentText : String
deriving DecidableEq, Repr

/-- The finalized item handleFileUpload appends for a non-empty batch
transcription result. -/
def mkBatchItem (text : String) (now : Nat) : TranscriptItem :=
  { id := toString now, text := text, isPartial := false, timestamp := now,
    speaker := Speaker.user }

/-- Operations that touch the transcript store in App.tsx. -/
inductive StoreOp where
  | transcriptionUpdate (item : TranscriptItem)
  | batchResult (text : String) (now : Nat)
  | clear (confirmed : Bool) (connState : ConnectionState)
deriving DecidableEq, Repr

/-- One step of the transcript store: handleTranscriptionUpdate (a partial
item replaces currentText, a finalized item is appended and currentText is
reset), the upload-result append guarded by a non-empty text, and
clearTranscripts (early return when both parts are empty, confirm dialog,
empty the list, and clear currentText only when not CONNECTED). -/
def applyStoreOp (st : AppState) (op : StoreOp) : AppState :=
  match op with
  | StoreOp.transcriptionUpdate item =>
      if item.isPartial then { st with currentText := item.text }
      else { transcripts := st.transcripts ++ [item], currentText := "" }
  | StoreOp.batchResult text now =>
      if text ≠ "" then
        { st with transcripts := st.transcripts ++ [mkBatchItem text now] }
      else st
  | StoreOp.clear confirmed connState =>
      if st.transcripts = [] ∧ st.currentText = "" then st
      else if confirmed then
        { transcripts := [],
          currentText :=
            if connState ≠ ConnectionState.CONNECTED then "" else st.currentText }
      else st

/-- Does an operation denote the user-confirmed clear? -/
def isConfirmedClear (op : StoreOp) : Bool :=
  match op with
  | StoreOp.clear true _ => true
  | _ => false

/-- The 20 MiB threshold of handleFileUpload. -/
def sizeThreshold : Nat := 20 * 1024 * 1024

/-- The two submission strategies of handleFileUpload. -/
inductive UploadStrategy where
  | inlinePayload
  | uploadThenPoll
deriving DecidableEq, Repr

/-- The branch of handleFileUpload on file.size: strictly below 20 MiB uses
the inline base64 payload, otherwise the Files API upload/poll/reference
flow. -/
def chooseUploadStrategy (fileSize : Nat) : UploadStrategy :=
  if fileSize < 20 * 1024 * 1024 then UploadStrategy.inlinePayload
  else UploadStrategy.uploadThenPoll

/-- App.handleFileUpload, at the level of its observable ordering: when the
connection state is CONNECTED the live service is disconnected first, then
the size-chosen submission strategy runs, then the generateContent request is
issued. Returns the live-service state after the upload began and the event
trace. -/
def handleFileUpload (connState : ConnectionState) (svc : ServiceState)
    (fileSize : Nat) : ServiceState × List Event :=
  let r1 : ServiceState × List Event :=
    if connState = ConnectionState.CONNECTED then disconnect svc else (svc, [])
  let stratEvent : Event :=
    match chooseUploadStrategy fileSize with
    | UploadStrategy.inlinePayload => Event.useInlinePayload
    | UploadStrategy.uploadThenPoll => Event.useUploadRef
  (r1.1, r1.2 ++ [stratEvent, Event.issueBatchRequest])

/- ----------------------------------------------------------------
   Helper lemmas: PCM encoding.
   ---------------------------------------------------------------- -/

theorem clampSample_le_one (x : ℚ) : clampSample x ≤ 1 :=
  max_le (by norm_num) (min_le_left _ _)

theorem neg_one_le_clampSample (x : ℚ) : -1 ≤ clampSample x :=
  le_max_left _ _

theorem clampSample_idem (x : ℚ) : clampSample (clampSample x) = clampSample x := by
  unfold clampSample
  rw [min_eq_right (max_le (by norm_num) (min_le_left _ _))]
  rw [max_eq_right (le_max_left _ _)]

theorem sampleToInt16_clamp (x : ℚ) :
    sampleToInt16 (clampSample x) = sampleToInt16 x := by
  unfold sampleToInt16
  rw [clampSample_idem]

theorem sampleToInt16_lower (x : ℚ) : -32768 ≤ sampleToInt16 x := by
  unfold sampleToInt16 truncQ
  by_cases hs : clampSample x < 0
  · rw [if_pos hs, if_pos (by nlinarith [clampSample_le_one x])]
    have h1 : -(clampSample x * 32768) ≤ 32768 := by
      nlinarith [neg_one_le_clampSample x]
    have h2 : (Int.floor (-(clampSample x * 32768)) : ℚ) ≤ 32768 :=
      le_trans (Int.floor_le _) h1
    have h3 : Int.floor (-(clampSample x * 32768)) ≤ 32768 := by exact_mod_cast h2
    omega
  · rw [if_neg hs]
    push_neg at hs
    rw [if_neg (by push_neg; nlinarith)]
    have h1 : (0 : ℚ) ≤ clampSample x * 32767 := by nlinarith
    have h2 : (0 : Int) ≤ Int.floor (clampSample x * 32767) := by
      rw [Int.le_floor]; exact_mod_cast h1
    omega

theorem sampleToInt16_upper (x : ℚ) : sampleToInt16 x ≤ 32767 := by
  unfold sampleToInt16 truncQ
  by_cases hs : clampSample x < 0
  · rw [if_pos hs, if_pos (by nlinarith [clampSample_le_one x])]
    have h1 : (0 : ℚ) ≤ -(clampSample x * 32768) := by nlinarith
    have h2 : (0 : Int) ≤ Int.floor (-(clampSample x * 32768)) := by
      rw [Int.le_floor]; exact_mod_cast h1
    omega
  · rw [if_neg hs]
    push_neg at hs
    rw [if_neg (by push_neg; nlinarith)]
    have h1 : clampSample x * 32767 ≤ 32767 := by
      nlinarith [clampSample_le_one x]
    have h2 : (Int.floor (clampSample x * 32767) : ℚ) ≤ 32767 :=
      le_trans (Int.floor_le _) h1
    exact_mod_cast h2

theorem int16ToBytes_eq_spec (v : Int) (h1 : -32768 ≤ v) (h2 : v ≤ 32767) :
    int16ToBytes v = int16ToBytesSpec v := by
  unfold int16ToBytes int16ToBytesSpec twosComplement16
  by_cases hv : v < 0
  · rw [if_pos hv]
    have : (v % 65536).toNat = (v + 65536).toNat := by omega
    rw [this]
  · rw [if_neg hv]
    have : (v % 65536).toNat = v.toNat := by omega
    rw [this]

theorem pcmBytes_eq_spec (data : List ℚ) : pcmBytes data = pcmBytesSpec data := by
  induction data with
  | nil => rfl
  | cons x rest ih =>
      unfold pcmBytes pcmBytesSpec
      rw [ih, int16ToBytes_eq_spec _ (sampleToInt16_lower x) (sampleToInt16_upper x)]

theorem pcmBytes_map_clamp (data : List ℚ) :
    pcmBytes (data.map clampSample) = pcmBytes data := by
  induction data with
  | nil => rfl
  | cons x rest ih =>
      rw [List.map_cons]
      show int16ToBytes (sampleToInt16 (clampSample x)) ++
          pcmBytes (List.map clampSample rest) =
        int16ToBytes (sampleToInt16 x) ++ pcmBytes rest
      rw [ih, sampleToInt16_clamp]

theorem pcmBytes_length (data : List ℚ) :
    (pcmBytes data).length = 2 * data.length := by
  induction data with
  | nil => rfl
  | cons x rest ih =>
      unfold pcmBytes int16ToBytes
      simp [ih]
      omega

theorem pcmBytes_lt (data : List ℚ) : ∀ b ∈ pcmBytes data, b < 256 := by
  induction data with
  | nil => intro b hb; simp [pcmBytes] at hb
  | cons x rest ih =>
      intro b hb
      unfold pcmBytes int16ToBytes at hb
      rw [List.mem_append] at hb
      rcases hb with hb | hb
      · simp only [List.mem_cons, List.mem_singleton] at hb
        rcases hb with hb | hb | hb
        · subst hb; omega
        · subst hb; omega
        · simp at hb
      · exact ih b hb

theorem sampleToInt16_zero : sampleToInt16 0 = 0 := by
  unfold sampleToInt16 clampSample truncQ
  rw [min_eq_right (by norm_num), max_eq_right (by norm_num)]
  rw [if_neg (by norm_num), if_neg (by norm_num)]
  norm_num

theorem sampleToInt16_one : sampleToInt16 1 = 32767 := by
  unfold sampleToInt16 clampSample truncQ
  rw [min_self, max_eq_right (by norm_num)]
  rw [if_neg (by norm_num), if_neg (by norm_num)]
  norm_num

theorem sampleToInt16_negOne : sampleToInt16 (-1) = -32768 := by
  unfold sampleToInt16 clampSample truncQ
  rw [min_eq_right (by norm_num), max_self]
  rw [if_pos (by norm_num), if_pos (by norm_num)]
  norm_num

theorem sampleToInt16_half : sampleToInt16 (1/2) = 16383 := by
  unfold sampleToInt16 clampSample truncQ
  rw [min_eq_right (by norm_num), max_eq_right (by norm_num)]
  rw [if_neg (by norm_num), if_neg (by norm_num)]
  norm_num

theorem sampleToInt16_threeHalves : sampleToInt16 (3/2) = 32767 := by
  unfold sampleToInt16 clampSample truncQ
  rw [min_eq_left (by norm_num), max_eq_right (by norm_num)]
  rw [if_neg (by norm_num), if_neg (by norm_num)]
  norm_num

/- ----------------------------------------------------------------
   Helper lemmas: base64.
   ---------------------------------------------------------------- -/

theorem b64CharVal_b64Char : ∀ n, n < 64 → b64CharVal (b64Char n) = n := by decide

theorem b64Char_ne_pad : ∀ n, n < 64 → b64Char n ≠ '=' := by decide

theorem b64_roundtrip : ∀ l : List Nat, (∀ b ∈ l, b < 256) →
    b64DecodeChunks (b64EncodeChunks l) = l := by
  intro l
  induction l using b64EncodeChunks.induct with
  | case1 =>
      intro _; rfl
  | case2 b1 =>
      intro h
      have hb1 : b1 < 256 := h b1 (by simp)
      unfold b64EncodeChunks b64DecodeChunks
      rw [if_pos rfl]
      rw [b64CharVal_b64Char _ (by omega), b64CharVal_b64Char _ (by omega)]
      have : b1 / 4 * 4 + b1 % 4 * 16 / 16 = b1 := by omega
      rw [this]
  | case3 b1 b2 =>
      intro h
      have hb1 : b1 < 256 := h b1 (by simp)
      have hb2 : b2 < 256 := h b2 (by simp)
      unfold b64EncodeChunks b64DecodeChunks
      rw [if_neg (b64Char_ne_pad _ (by omega)), if_pos rfl]
      rw [b64CharVal_b64Char _ (by omega), b64CharVal_b64Char _ (by omega),
        b64CharVal_b64Char _ (by omega)]
      have e1 : b1 / 4 * 4 + (b1 % 4 * 16 + b2 / 16) / 16 = b1 := by omega
      have e2 : (b1 % 4 * 16 + b2 / 16) % 16 * 16 + b2 % 16 * 4 / 4 = b2 := by omega
      rw [e1, e2]
  | case4 b1 b2 b3 rest ih =>
      intro h
      have hb1 : b1 < 256 := h b1 (by simp)
      have hb2 : b2 < 256 := h b2 (by simp)
      have hb3 : b3 < 256 := h b3 (by simp)
      unfold b64EncodeChunks b64DecodeChunks
      rw [if_neg (b64Char_ne_pad _ (by omega)), if_neg (b64Char_ne_pad _ (by omega))]
      rw [b64CharVal_b64Char _ (by omega), b64CharVal_b64Char _ (by omega),
        b64CharVal_b64Char _ (by omega), b64CharVal_b64Char _ (by omega)]
      have e1 : b1 / 4 * 4 + (b1 % 4 * 16 + b2 / 16) / 16 = b1 := by omega
      have e2 : (b1 % 4 * 16 + b2 / 16) % 16 * 16 + (b2 % 16 * 4 + b3 / 64) / 4 = b2 := by
        omega
      have e3 : (b2 % 16 * 4 + b3 / 64) % 4 * 64 + b3 % 64 = b3 := by omega
      rw [e1, e2, e3]
      rw [ih (fun b hb => h b (by simp [hb]))]

theorem b64DecodeStr_encode (l : List Nat) (h : ∀ b ∈ l, b < 256) :
    b64DecodeStr (encode l) = l := by
  unfold b64DecodeStr encode
  rw [show (String.mk (b64EncodeChunks l)).toList = b64EncodeChunks l from rfl]
  exact b64_roundtrip l h

/- ----------------------------------------------------------------
   Claims C2 and C10.
   ---------------------------------------------------------------- -/

/-- Claim C2: the PCM encoder createBlob equals the reference definition of
the spec (clamp to [-1,1], scale negatives by 32768 and non-negatives by
32767, pack little-endian 16-bit two's complement, base64-encode, fixed mime
type); the input [0, 1, -1, 0.5] produces the pre-base64 byte sequence
[0x00,0x00, 0xFF,0x7F, 0x00,0x80, 0xFF,0x3F]; and out-of-range samples
encode identically to their clamped values (1.5 encodes as 1.0). -/
theorem C2_createBlob_matches_reference :
    (∀ data : List ℚ, createBlob data = pcmEncodeSpec data) ∧
    pcmBytes [0, 1, -1, 1/2] =
      [0x00, 0x00, 0xFF, 0x7F, 0x00, 0x80, 0xFF, 0x3F] ∧
    (∀ data : List ℚ, createBlob (data.map clampSample) = createBlob data) ∧
    createBlob [3/2] = createBlob [1] := by
  refine ⟨?_, ?_, ?_, ?_⟩
  · intro data
    unfold createBlob pcmEncodeSpec
    rw [pcmBytes_eq_spec]
  · simp only [pcmBytes]
    rw [sampleToInt16_zero, sampleToInt16_one, sampleToInt16_negOne,
      sampleToInt16_half]
    decide
  · intro data
    unfold createBlob
    rw [pcmBytes_map_clamp]
  · unfold createBlob
    simp only [pcmBytes]
    rw [sampleToInt16_threeHalves, sampleToInt16_one]

/-- Claim C10: for every input of n samples, the base64 data string of
createBlob decodes back to the raw PCM byte sequence, which has exactly 2*n
bytes, and the mimeType field is the constant string regardless of input. -/
theorem C10_blob_decodes_to_two_bytes_per_sample (data : List ℚ) :
    b64DecodeStr (createBlob data).data = pcmBytes data ∧
    (pcmBytes data).length = 2 * data.length ∧
    (createBlob data).mimeType = "audio/pcm;rate=16000" := by
  refine ⟨?_, pcmBytes_length data, rfl⟩
  unfold createBlob
  exact b64DecodeStr_encode (pcmBytes data) (pcmBytes_lt data)

/- ----------------------------------------------------------------
   Claims C1 and C9: handleOnMessage.
   ---------------------------------------------------------------- -/

/-- Claim C1: a message carrying a (non-empty) partial transcription fragment
appends it to the buffer and emits exactly one isPartial = true update whose
text is the full accumulated buffer; a turn-complete message whose
accumulated buffer (fragment included) does not trim to empty emits exactly
one finalized isPartial = false item carrying the accumulated buffer and
clears the buffer; a turn-complete whose buffer trims to empty emits no
finalized item. -/
theorem C1_message_handling (now : Nat) (s : ServiceState) (m : LiveServerMessage) :
    ((msgFragment m).isSome = true →
      partialCount (handleOnMessage now s m).2 = 1 ∧
      (∀ it ∈ (handleOnMessage now s m).2, it.isPartial = true →
        it.text = s.currentInputTranscription ++ (msgFragment m).getD "")) ∧
    (msgTurnComplete m = true →
      trimString (s.currentInputTranscription ++ (msgFragment m).getD "") ≠ "" →
      finalCount (handleOnMessage now s m).2 = 1 ∧
      (∀ it ∈ (handleOnMessage now s m).2, it.isPartial = false →
        it.text = s.currentInputTranscription ++ (msgFragment m).getD "") ∧
      (handleOnMessage now s m).1.currentInputTranscription = "") ∧
    (msgTurnComplete m = true →
      trimString (s.currentInputTranscription ++ (msgFragment m).getD "") = "" →
      finalCount (handleOnMessage now s m).2 = 0) := by
  cases hf : msgFragment m with
  | none =>
      simp only [Option.getD_none, String.append_empty]
      by_cases htc : msgTurnComplete m
      · by_cases htr : trimString s.currentInputTranscription = ""
        · simp [handleOnMessage, hf, htc, htr, finalCount]
        · simp [handleOnMessage, hf, htc, htr, finalCount, partialCount,
            emitTranscription]
      · simp [handleOnMessage, hf, htc, finalCount, partialCount]
  | some t =>
      simp only [Option.getD_some]
      by_cases htc : msgTurnComplete m
      · by_cases htr :
          trimString (s.currentInputTranscription ++ t) = ""
        · simp [handleOnMessage, hf, htc, htr, finalCount, partialCount,
            emitTranscription]
        · simp [handleOnMessage, hf, htc, htr, finalCount, partialCount,
            emitTranscription]
      · simp [handleOnMessage, hf, htc, finalCount, partialCount,
          emitTranscription]

/-- Claim C9: a turn-complete message with no fragment, arriving while the
buffer is empty or whitespace-only, leaves the service state entirely
unchanged and emits nothing — in particular the buffer is NOT cleared, so a
following fragment produces a partial whose text is the surviving buffer with
the fragment appended. -/
theorem C9_whitespace_turn_complete_noop (now : Nat) (s : ServiceState)
    (m : LiveServerMessage) :
    msgFragment m = none → msgTurnComplete m = true →
    trimString s.currentInputTranscription = "" →
    handleOnMessage now s m = (s, []) ∧
    (∀ now2 m2 t, msgFragment m2 = some t →
      ∀ it ∈ (handleOnMessage now2 s m2).2, it.isPartial = true →
        it.text = s.currentInputTranscription ++ t) := by
  intro hf htc htr
  constructor
  · simp [handleOnMessage, hf, htc, htr]
  · intro now2 m2 t hf2 it hit hp
    by_cases htc2 : msgTurnComplete m2
    · by_cases htr2 :
        trimString (s.currentInputTranscription ++ t) = ""
      · simp [handleOnMessage, hf2, htc2, htr2, emitTranscription] at hit
        subst hit; rfl
      · simp [handleOnMessage, hf2, htc2, htr2, emitTranscription] at hit
        rcases hit with hit | hit
        · subst hit; rfl
        · subst hit; simp [emitTranscription] at hp
    · simp [handleOnMessage, hf2, htc2, emitTranscription] at hit
      subst hit; rfl

/- ----------------------------------------------------------------
   Claim C3: disconnect safety.
   ---------------------------------------------------------------- -/

/-- Claim C3: disconnect() is total from every state (no session, mid-connect,
right after a previous disconnect): it leaves every resource field null and
the buffer empty, and reports onStatusChange(false) exactly once per call —
also when invoked from within the connection-error callback, and on an
immediately repeated call. -/
theorem C3_disconnect_safe_any_state (s : ServiceState) :
    (disconnect s).1.session = false ∧
    (disconnect s).1.inputAudioContext = false ∧
    (disconnect s).1.stream = false ∧
    (disconnect s).1.processor = false ∧
    (disconnect s).1.source = false ∧
    (disconnect s).1.currentInputTranscription = "" ∧
    countStatusFalse (disconnect s).2 = 1 ∧
    countStatusFalse (handleOnError s).2 = 1 ∧
    countStatusFalse (disconnect (disconnect s).1).2 = 1 :=
  ⟨rfl, rfl, rfl, rfl, rfl, rfl, rfl, rfl, rfl⟩

/- ----------------------------------------------------------------
   Claim C4: connect ordering (corrected).
   ---------------------------------------------------------------- -/

/-- Claim C4, counterexample: on a fully successful run from a fresh state,
the first side effect of connect() is opening the 16 kHz audio context, not
the microphone request the claim puts first — the full trace shows the
microphone request second. -/
theorem C4_counterexample_context_before_mic :
    (connect (ConnectEnv.mk true true true) emptyServiceState).2 =
      [Event.openAudioContext 16000, Event.requestMicrophone,
       Event.openRealtimeConnection true, Event.attachAudioTap,
       Event.statusChange true] ∧
    (connect (ConnectEnv.mk true true true) emptyServiceState).2.head? ≠
      some Event.requestMicrophone := by
  decide

/-- Claim C4 as amended: connect() first opens the 16 kHz audio capture
context, THEN requests microphone access, then opens the realtime connection
with callbacks registered, then attaches the audio tap; a failure at any step
aborts the operation, releases every partially-acquired resource, and reports
a structured error (plus the disconnected notification). -/
theorem C4_amended_connect_order (env : ConnectEnv) (s : ServiceState) :
    (env.audioContextOk = true → env.microphoneOk = true → env.connectOk = true →
      (connect env s).2 =
        [Event.openAudioContext 16000, Event.requestMicrophone,
         Event.openRealtimeConnection true, Event.attachAudioTap,
         Event.statusChange true] ∧
      (connect env s).1 =
        { s with
            inputAudioContext := true
            stream := true
            session := true
            source := true
            processor := true }) ∧
    ((env.audioContextOk = false ∨ env.microphoneOk = false ∨
        env.connectOk = false) →
      (connect env s).1 = emptyServiceState ∧
      Event.errorReport "Failed to connect to Gemini Live Service" ∈
        (connect env s).2 ∧
      Event.statusChange false ∈ (connect env s).2 ∧
      Event.statusChange true ∉ (connect env s).2 ∧
      Event.attachAudioTap ∉ (connect env s).2) := by
  rcases env with ⟨a, b, c⟩
  cases a <;> cases b <;> cases c <;>
    simp [connect, connectFail, disconnect]

/-- Witness for the amended C4: a concrete all-success run produces the
context-first trace, and a concrete context-construction failure releases
everything. -/
theorem C4_amended_witness :
    (connect (ConnectEnv.mk true true true) (ServiceState.mk false false
        false false false "x")).2 =
      [Event.openAudioContext 16000, Event.requestMicrophone,
       Event.openRealtimeConnection true, Event.attachAudioTap,
       Event.statusChange true] ∧
    (connect (ConnectEnv.mk false true true) (ServiceState.mk false false
        false false false "x")).1 = emptyServiceState := by
  refine ⟨(((C4_amended_connect_order (ConnectEnv.mk true true true)
      (ServiceState.mk false false false false false "x")).1) rfl rfl rfl).1, ?_⟩
  exact (((C4_amended_connect_order (ConnectEnv.mk false true true)
      (ServiceState.mk false false false false false "x")).2) (Or.inl rfl)).1

/- ----------------------------------------------------------------
   Claim C5: upload size threshold.
   ---------------------------------------------------------------- -/

/-- Claim C5: a file of exactly 20 MiB takes the upload-then-poll-then-
reference path, and exactly the files strictly below the threshold are
submitted inline. -/
theorem C5_threshold_boundary :
    chooseUploadStrategy (20 * 1024 * 1024) = UploadStrategy.uploadThenPoll ∧
    (∀ n, n < 20 * 1024 * 1024 →
      chooseUploadStrategy n = UploadStrategy.inlinePayload) ∧
    (∀ n, ¬ n < 20 * 1024 * 1024 →
      chooseUploadStrategy n = UploadStrategy.uploadThenPoll) := by
  refine ⟨by decide, ?_, ?_⟩
  · intro n h
    unfold chooseUploadStrategy
    rw [if_pos h]
  · intro n h
    unfold chooseUploadStrategy
    rw [if_neg h]

/-- Witness for C5: one concrete size on each side of the boundary. -/
theorem C5_threshold_witness :
    chooseUploadStrategy 1024 = UploadStrategy.inlinePayload ∧
    chooseUploadStrategy (20 * 1024 * 1024 + 1) = UploadStrategy.uploadThenPoll :=
  ⟨C5_threshold_boundary.2.1 1024 (by decide),
   C5_threshold_boundary.2.2 (20 * 1024 * 1024 + 1) (by decide)⟩

/- ----------------------------------------------------------------
   Claim C6: upload disconnects a live session first.
   ---------------------------------------------------------------- -/

/-- Claim C6: when an upload begins in state CONNECTED, the live service
disconnect (and its session-closed notification) happens before the batch
transcription request is issued, and the upload proceeds with the session
closed. -/
theorem C6_upload_disconnects_first (connState : ConnectionState)
    (svc : ServiceState) (fileSize : Nat) :
    connState = ConnectionState.CONNECTED →
    Event.statusChange false ∈ (handleFileUpload connState svc fileSize).2 ∧
    Event.issueBatchRequest ∈ (handleFileUpload connState svc fileSize).2 ∧
    (handleFileUpload connState svc fileSize).2.findIdx
        (fun e => e == Event.statusChange false) <
      (handleFileUpload connState svc fileSize).2.findIdx
        (fun e => e == Event.issueBatchRequest) ∧
    (handleFileUpload connState svc fileSize).1.session = false := by
  intro hc
  subst hc
  by_cases hsz : fileSize < 20 * 1024 * 1024
  all_goals
    simp [handleFileUpload, disconnect, chooseUploadStrategy, hsz,
      List.findIdx_cons, emptyServiceState]
  all_goals decide

/-- Witness for C6: a connected session with a small file. -/
theorem C6_upload_witness :
    Event.statusChange false ∈
      (handleFileUpload ConnectionState.CONNECTED
        (ServiceState.mk true true true true true "buf") 5).2 ∧
    Event.issueBatchRequest ∈
      (handleFileUpload ConnectionState.CONNECTED
        (ServiceState.mk true true true true true "buf") 5).2 ∧
    (handleFileUpload ConnectionState.CONNECTED
        (ServiceState.mk true true true true true "buf") 5).2.findIdx
        (fun e => e == Event.statusChange false) <
      (handleFileUpload ConnectionState.CONNECTED
        (ServiceState.mk true true true true true "buf") 5).2.findIdx
        (fun e => e == Event.issueBatchRequest) ∧
    (handleFileUpload ConnectionState.CONNECTED
        (ServiceState.mk true true true true true "buf") 5).1.session = false :=
  C6_upload_disconnects_first ConnectionState.CONNECTED
    (ServiceState.mk true true true true true "buf") 5 rfl

/- ----------------------------------------------------------------
   Claims C7 and C8: transcript store.
   ---------------------------------------------------------------- -/

/-- Claim C7: across every store operation the state carries at most one
partial entry (the single currentText slot — the finalized list never
acquires a partial item), and the finalized list either stays unchanged, or
grows by exactly one appended finalized item, or is emptied — the latter only
by the user-confirmed clear. -/
theorem C7_store_invariants (st : AppState) (op : StoreOp) :
    ((∀ it ∈ st.transcripts, it.isPartial = false) →
      ∀ it ∈ (applyStoreOp st op).transcripts, it.isPartial = false) ∧
    ((applyStoreOp st op).transcripts = st.transcripts ∨
      (∃ item, item.isPartial = false ∧
        (applyStoreOp st op).transcripts = st.transcripts ++ [item]) ∨
      (isConfirmedClear op = true ∧ (applyStoreOp st op).transcripts = [])) := by
  cases op with
  | transcriptionUpdate item =>
      by_cases hp : item.isPartial
      · constructor
        · intro h it hit
          simp [applyStoreOp, hp] at hit
          exact h it hit
        · left; simp [applyStoreOp, hp]
      · constructor
        · intro h it hit
          simp [applyStoreOp, hp] at hit
          rcases hit with hit | hit
          · exact h it hit
          · subst hit; simpa using hp
        · right; left
          exact ⟨item, by simpa using hp, by simp [applyStoreOp, hp]⟩
  | batchResult text now =>
      by_cases ht : text = ""
      · constructor
        · intro h it hit
          simp [applyStoreOp, ht] at hit
          exact h it hit
        · left; simp [applyStoreOp, ht]
      · constructor
        · intro h it hit
          simp [applyStoreOp, ht] at hit
          rcases hit with hit | hit
          · exact h it hit
          · subst hit; rfl
        · right; left
          exact ⟨mkBatchItem text now, rfl, by simp [applyStoreOp, ht]⟩
  | clear confirmed connState =>
      by_cases hg : st.transcripts = [] ∧ st.currentText = ""
      · constructor
        · intro h it hit
          simp [applyStoreOp, hg] at hit
        · left; simp [applyStoreOp, hg]
      · cases confirmed with
        | true =>
            constructor
            · intro h it hit
              simp [applyStoreOp, hg] at hit
            · right; right
              exact ⟨rfl, by simp [applyStoreOp, hg]⟩
        | false =>
            constructor
            · intro h it hit
              simp [applyStoreOp, hg] at hit
              exact h it hit
            · left; simp [applyStoreOp, hg]

/-- Witness for C7: appending a batch result to an empty store yields exactly
the one finalized item, and it is not partial. -/
theorem C7_store_witness :
    (applyStoreOp (AppState.mk [] "") (StoreOp.batchResult "hi" 7)).transcripts =
      [mkBatchItem "hi" 7] ∧
    (mkBatchItem "hi" 7).isPartial = false := by
  have h := (C7_store_invariants (AppState.mk [] "")
    (StoreOp.batchResult "hi" 7)).1 (by simp)
  exact ⟨by decide, h (mkBatchItem "hi" 7) (by decide)⟩

/-- Claim C8: a confirmed clear empties the finalized list; while CONNECTED
it leaves the in-progress partial text unchanged, and while DISCONNECTED it
clears it too. -/
theorem C8_clear_semantics (st : AppState) (connState : ConnectionState) :
    (applyStoreOp st (StoreOp.clear true connState)).transcripts = [] ∧
    (connState = ConnectionState.CONNECTED →
      (applyStoreOp st (StoreOp.clear true connState)).currentText =
        st.currentText) ∧
    (connState = ConnectionState.DISCONNECTED →
      (applyStoreOp st (StoreOp.clear true connState)).currentText = "") := by
  by_cases hg : st.transcripts = [] ∧ st.currentText = ""
  · refine ⟨by simp [applyStoreOp, hg], ?_, ?_⟩
    · intro _; simp [applyStoreOp, hg]
    · intro _; simp [applyStoreOp, hg]
  · refine ⟨by simp [applyStoreOp, hg], ?_, ?_⟩
    · intro hc; subst hc; simp [applyStoreOp, hg]
    · intro hc; subst hc; simp [applyStoreOp, hg]

/-- Witness for C8: clearing while CONNECTED keeps the live partial text;
clearing the same store while DISCONNECTED drops it. -/
theorem C8_clear_witness :
    (applyStoreOp (AppState.mk [mkBatchItem "a" 1] "live")
        (StoreOp.clear true ConnectionState.CONNECTED)).transcripts = [] ∧
    (applyStoreOp (AppState.mk [mkBatchItem "a" 1] "live")
        (StoreOp.clear true ConnectionState.CONNECTED)).currentText = "live" ∧
    (applyStoreOp (AppState.mk [mkBatchItem "a" 1] "live")
        (StoreOp.clear true ConnectionState.DISCONNECTED)).currentText = "" := by
  refine ⟨(C8_clear_semantics (AppState.mk [mkBatchItem "a" 1] "live")
      ConnectionState.CONNECTED).1, ?_, ?_⟩
  · exact (C8_clear_semantics (AppState.mk [mkBatchItem "a" 1] "live")
      ConnectionState.CONNECTED).2.1 rfl
  · exact (C8_clear_semantics (AppState.mk [mkBatchItem "a" 1] "live")
      ConnectionState.DISCONNECTED).2.2 rfl

/- ----------------------------------------------------------------
   Witnesses for C1 and C9.
   ---------------------------------------------------------------- -/

/-- Witness for C1: buffer "hello", fragment " world" arriving with
turnComplete set — exactly one partial update, one finalized item, buffer
cleared. -/
theorem C1_message_witness :
    partialCount (handleOnMessage 5
      { emptyServiceState with currentInputTranscription := "hello" }
      (LiveServerMessage.mk (some (ServerContent.mk
        (some (InputTranscription.mk (some " world"))) true)))).2 = 1 ∧
    finalCount (handleOnMessage 5
      { emptyServiceState with currentInputTranscription := "hello" }
      (LiveServerMessage.mk (some (ServerContent.mk
        (some (InputTranscription.mk (some " world"))) true)))).2 = 1 ∧
    ServiceState.currentInputTranscription (handleOnMessage 5
      { emptyServiceState with currentInputTranscription := "hello" }
      (LiveServerMessage.mk (some (ServerContent.mk
        (some (InputTranscription.mk (some " world"))) true)))).1 = "" := by
  have h := C1_message_handling 5
    { emptyServiceState with currentInputTranscription := "hello" }
    (LiveServerMessage.mk (some (ServerContent.mk
      (some (InputTranscription.mk (some " world"))) true)))
  exact ⟨(h.1 (by decide)).1, (h.2.1 rfl (by decide)).1, (h.2.1 rfl (by decide)).2.2⟩

/-- Witness for C9: a bare turn-complete hitting a whitespace-only buffer
changes nothing and emits nothing. -/
theorem C9_whitespace_witness :
    handleOnMessage 3
      { emptyServiceState with currentInputTranscription := "  " }
      (LiveServerMessage.mk (some (ServerContent.mk none true))) =
      ({ emptyServiceState with currentInputTranscription := "  " }, []) :=
  (C9_whitespace_turn_complete_noop 3
    { emptyServiceState with currentInputTranscription := "  " }
    (LiveServerMessage.mk (some (ServerContent.mk none true)))
    rfl rfl (by decide)).1

end MatrusVox
